import Mathlib

/-!
Verification of the Performance-Indicator (PI) harness:
two benchmark drivers, `src/tensorflow/conv1d.py` (numeric-op variant) and
`src/python_interpreter/pipyperformance.py` (external-suite bridge).

The embedding models:
  * environment-variable parameter resolution (`int(os.getenv(KEY, default))`
    at module level of conv1d.py),
  * the timing engine of `bench` (one unmeasured warm-up call followed by
    `_ARGS_REPS` measured calls),
  * the statistics reducer (`np.median` over the millisecond sample),
  * the cost model and rate derivation (`ops`, `rate` in `bench`),
  * report assembly and the output channels of both drivers
    (all diagnostics to stderr, one JSON report to stdout),
  * the suite-bridge failure policy of pipyperformance.py.

Floats are modelled by exact rationals (the properties under check are
formula-level, per the spec's own instruction to verify the formula, not
the runtime).
-/

namespace PerfPI

/-! ## Python `int()` on strings, environment lookup -/

/-- Value of a nonempty all-digit character list, `none` otherwise.
Models the digit-string core accepted by Python's `int()` builtin. -/
def digitsVal (cs : List Char) : Option Nat :=
  if cs = [] then none
  else if cs.all (fun c => c.isDigit) then
    some (cs.foldl (fun a c => 10 * a + (c.toNat - 48)) 0)
  else none

/-- Python's `int(s)` on a string: optional surrounding spaces, optional
sign, then decimal digits; anything else raises `ValueError` (`none`). -/
def pyInt (s : String) : Option Int :=
  let cs := ((s.toList.dropWhile (fun c => c == ' ')).reverse.dropWhile
      (fun c => c == ' ')).reverse
  match cs with
  | '-' :: rest => (digitsVal rest).map (fun n => -(n : Int))
  | '+' :: rest => (digitsVal rest).map (fun n => (n : Int))
  | _ => (digitsVal cs).map (fun n => (n : Int))

/-- An environment: a partial map from variable names to string values. -/
def Env : Type := String → Option String

/-- `os.getenv(key, default)` for a string-typed parameter: the raw value
when set, the hardcoded default otherwise.  Never fails. -/
def resolveStrVar (env : Env) (key dflt : String) : String :=
  (env key).getD dflt

/-- `int(os.getenv(key, default))` for an integer-typed parameter with an
integer default: the default when the variable is unset (Python applies
`int` to the integer default, an identity), otherwise `int` of the raw
string, which raises `ValueError` on a malformed value. -/
def resolveIntVar (env : Env) (key : String) (dflt : Int) : Except String Int :=
  match env key with
  | none => .ok dflt
  | some s =>
    match pyInt s with
    | some n => .ok n
    | none => .error ("ValueError: invalid literal for int with base 10: " ++ s)

/-! ## Resolved parameter set of conv1d.py (module level, lines 34-85) -/

/-- All parameters read by conv1d.py at module level, in source order. -/
structure ConvParams where
  dtype : String
  device : String
  reps : Int
  data_format : String
  batch : Int
  input_width : Int
  t_input_channels : Int
  filter_width : Int
  f_input_channels : Int
  output_channels : Int
  padding : String
  stride : Int
deriving DecidableEq, BEq

/-- Module-level parameter resolution of conv1d.py: each `_ARGS_*` global
in source order.  `FILTER_INPUT_CHANNELS` (line 71) defaults to the
already-resolved `_ARGS_T_INPUT_CHANNELS`, not to a constant. -/
def resolveConvParams (env : Env) : Except String ConvParams :=
  let dtype := resolveStrVar env "TENSOR_DTYPE" "float32"
  let device := resolveStrVar env "CONV2D_DEVICE" "cpu"
  match resolveIntVar env "CONV_REPS" 80 with
  | .error e => .error e
  | .ok reps =>
    let data_format := resolveStrVar env "CONV_DATA_FORMAT" "NWC"
    match resolveIntVar env "BATCH" 1 with
    | .error e => .error e
    | .ok batch =>
      match resolveIntVar env "TENSOR_INPUT_WIDTH" 7 with
      | .error e => .error e
      | .ok input_width =>
        match resolveIntVar env "TENSOR_INPUT_CHANNELS" 1 with
        | .error e => .error e
        | .ok t_input_channels =>
          match resolveIntVar env "FILTER_INPUT_WIDTH" 3 with
          | .error e => .error e
          | .ok filter_width =>
            match resolveIntVar env "FILTER_INPUT_CHANNELS" t_input_channels with
            | .error e => .error e
            | .ok f_input_channels =>
              match resolveIntVar env "FILTER_OUTPUT_CHANNELS" 1 with
              | .error e => .error e
              | .ok output_channels =>
                let padding := resolveStrVar env "FILTER_PADDING" "SAME"
                match resolveIntVar env "FILTER_STRIDE" 2 with
                | .error e => .error e
                | .ok stride =>
                  .ok { dtype := dtype, device := device, reps := reps,
                        data_format := data_format, batch := batch,
                        input_width := input_width,
                        t_input_channels := t_input_channels,
                        filter_width := filter_width,
                        f_input_channels := f_input_channels,
                        output_channels := output_channels,
                        padding := padding, stride := stride }

/-- The parameter set obtained from an empty environment: every value is
its hardcoded default. -/
def defaultConvParams : ConvParams :=
  { dtype := "float32", device := "cpu", reps := 80, data_format := "NWC",
    batch := 1, input_width := 7, t_input_channels := 1, filter_width := 3,
    f_input_channels := 1, output_channels := 1, padding := "SAME",
    stride := 2 }

/-- Scenario A of the spec: batch=1, input_width=7, input_channels=1,
filter_width=3, output_channels=1, stride=2 (the defaults). -/
def scenarioA : ConvParams := defaultConvParams

/-! ## Timing engine (`bench`, lines 167-177) -/

/-- State of the TensorFlow session, reduced to what the timing protocol
observes: how many times `sess.run(convolution.op)` has been invoked. -/
structure SessState where
  calls : Nat
deriving DecidableEq

/-- One `sess.run(convolution.op)`: bumps the invocation counter and
yields the wall-clock duration of this call, supplied by the oracle `w`
(call indices start at 0). -/
def sessRun (w : Nat → ℚ) (s : SessState) : SessState × ℚ :=
  ({ calls := s.calls + 1 }, w s.calls)

/-- Result of the measurement section of `bench`: the final session state
and the recorded duration sample `times`. -/
structure MeasureOut where
  sess : SessState
  times : List ℚ
deriving DecidableEq

/-- Lines 170-177 of conv1d.py: one warm-up `sess.run` whose duration is
discarded, then `reps` iterations each recording `time.time() - start`
around one `sess.run`, appending to `times`. -/
def measure (w : Nat → ℚ) (reps : Nat) : MeasureOut :=
  let s0 : SessState := { calls := 0 }
  let s1 := (sessRun w s0).1
  (List.range reps).foldl
    (fun acc _ =>
      let p := sessRun w acc.sess
      { sess := p.1, times := acc.times ++ [p.2] })
    { sess := s1, times := [] }

/-! ## Statistics reducer (`np.median`, line 180) -/

/-- Insert into an ascending-sorted list of rationals. -/
def insertSorted (x : ℚ) : List ℚ → List ℚ
  | [] => [x]
  | y :: ys => if x ≤ y then x :: y :: ys else y :: insertSorted x ys

/-- Ascending sort of a list of rationals. -/
def sortAsc (l : List ℚ) : List ℚ := l.foldr insertSorted []

/-- `np.median`: sort the sample; an odd-length sample yields the middle
element, an even-length sample the average of the two middle elements. -/
def npMedian (l : List ℚ) : ℚ :=
  let s := sortAsc l
  let n := l.length
  if n % 2 = 1 then s.getD (n / 2) 0
  else (s.getD (n / 2 - 1) 0 + s.getD (n / 2) 0) / 2

/-- Arithmetic mean of a sample (for contrast with the median; the code
uses `np.median`, not a mean). -/
def listMean (l : List ℚ) : ℚ := l.sum / l.length

/-! ## Cost model and rate (`bench`, lines 179-195) -/

/-- Lines 184-191: total operations implied by the parameters,
`(batch * tensor_input_width * filter_width * tensor_input_channels *
filter_output_channels * 2) / _ARGS_STRIDE`.  Note that
`filter_input_channels` does not occur. -/
def benchOps (p : ConvParams) : ℚ :=
  ((p.batch : ℚ) * (p.input_width : ℚ) * (p.filter_width : ℚ)
      * (p.t_input_channels : ℚ) * (p.output_channels : ℚ) * 2)
    / (p.stride : ℚ)

/-- The spec's closed-form cost model, transcribed from its words:
`(batch x input_width x filter_width x input_channels x output_channels
x 2) / stride`. -/
def spec_total_operations
    (batch input_width filter_width input_channels output_channels stride : ℚ) : ℚ :=
  (batch * input_width * filter_width * input_channels * output_channels * 2)
    / stride

/-- Line 192: `rate = ops / elapsed_ms / 10 ** 6` (GFLOPS). -/
def benchRate (p : ConvParams) (elapsed_ms : ℚ) : ℚ :=
  benchOps p / elapsed_ms / 10 ^ 6

/-- Lines 179-180 then 192: convert the second-denominated sample to
milliseconds, reduce it by the median, derive the rate; `bench` returns
`(rate, elapsed_ms)`. -/
def benchResult (p : ConvParams) (times : List ℚ) : ℚ × ℚ :=
  let elapsed_ms := npMedian (times.map (fun t => 1000 * t))
  (benchRate p elapsed_ms, elapsed_ms)

/-! ## Build-metadata probe (lines 92-111) -/

/-- `_get_aicoe_tensorflow_build_info`: the external lookup either yields
build information or raises; the `except` clause swallows any error and
the function returns `None`. -/
def getAicoeBuildInfo (probe : Except String String) : Option String :=
  match probe with
  | .ok info => some info
  | .error _ => none

/-! ## Reports and output channels -/

/-- The `"@parameters"` object of the conv1d report (lines 214-226), in
source key order.  It has no filter-input-channels entry. -/
structure ConvReportParams where
  dtype : String
  device : String
  reps : Int
  batch : Int
  input_width : Int
  input_channels : Int
  filter_width : Int
  output_channels : Int
  strides : Int
  padding : String
  data_format : String
deriving DecidableEq, BEq

/-- Lines 214-226: the parameter echo placed in the report.
`input_channels` echoes `_ARGS_T_INPUT_CHANNELS`; `_ARGS_F_INPUT_CHANNELS`
is not echoed. -/
def echoParams (p : ConvParams) : ConvReportParams :=
  { dtype := p.dtype, device := p.device, reps := p.reps, batch := p.batch,
    input_width := p.input_width, input_channels := p.t_input_channels,
    filter_width := p.filter_width, output_channels := p.output_channels,
    strides := p.stride, padding := p.padding, data_format := p.data_format }

/-- The conv1d report record (lines 211-229).  `tensorflow_buildinfo` is
always a field of the record; `none` models JSON `null`. -/
structure ConvReport where
  framework : String
  name : String
  parameters : ConvReportParams
  rate : ℚ
  elapsed : ℚ
  tensorflow_buildinfo : Option String
deriving DecidableEq

/-- `main` of conv1d.py: run `bench` on the resolved parameters and
assemble the report. -/
def conv1dReport (p : ConvParams) (times : List ℚ)
    (probe : Except String String) : ConvReport :=
  { framework := "tensorflow", name := "PiConv1D", parameters := echoParams p,
    rate := (benchResult p times).1, elapsed := (benchResult p times).2,
    tensorflow_buildinfo := getAicoeBuildInfo probe }

/-- The pipyperformance report record (lines 52-57); `result` is the
suite's opaque result bundle passed through verbatim. -/
structure PyReport where
  test_suite : String
  name : String
  result : String
deriving DecidableEq

/-- Output channels of a driver process. -/
inductive Chan
  | out
  | err
deriving DecidableEq, BEq

/-- One datum written to a channel: diagnostic text, or a serialized
report of either driver. -/
inductive OutData
  | text (s : String)
  | reportConv (r : ConvReport)
  | reportPy (r : PyReport)
deriving DecidableEq

/-- One write event of a driver process. -/
structure Event where
  chan : Chan
  data : OutData
deriving DecidableEq

/-- The stdout projection of a write trace. -/
def stdoutOf (tr : List Event) : List Event :=
  tr.filter (fun e => e.chan == Chan.out)

/-- The twelve module-level configuration echoes of conv1d.py
(lines 35-85), each `print(..., file=sys.stderr)`. -/
def configEchoes (p : ConvParams) : List Event :=
  [ { chan := .err, data := .text ("DTYPE set to " ++ p.dtype) },
    { chan := .err, data := .text ("DEVICE set to " ++ p.device) },
    { chan := .err, data := .text ("REPS set to " ++ toString p.reps) },
    { chan := .err, data := .text ("CONV DATA FORMAT set to " ++ p.data_format) },
    { chan := .err, data := .text ("BATCH set to " ++ toString p.batch) },
    { chan := .err, data := .text ("TENSOR INPUT WIDTH set to " ++ toString p.input_width) },
    { chan := .err, data := .text ("TENSOR INPUT CHANNELS set to " ++ toString p.t_input_channels) },
    { chan := .err, data := .text ("FILTER INPUT WIDTH set to " ++ toString p.filter_width) },
    { chan := .err, data := .text ("FILTER INPUT CHANNELS set to " ++ toString p.f_input_channels) },
    { chan := .err, data := .text ("FILTER OUTPUT CHANNELS set to " ++ toString p.output_channels) },
    { chan := .err, data := .text ("FILTER PADDING set to " ++ p.padding) },
    { chan := .err, data := .text ("FILTER STRIDE set to " ++ toString p.stride) } ]

/-- The full write trace of a successful conv1d.py invocation: the
configuration echoes, the version line (`main`, line 200) and the
`conv took` line (`bench`, line 193) on stderr, then exactly one
`json.dump` of the report to stdout (line 230). -/
def conv1dTrace (p : ConvParams) (times : List ℚ)
    (probe : Except String String) : List Event :=
  configEchoes p ++
  [ { chan := .err, data := .text "# Version" },
    { chan := .err, data := .text "conv took" },
    { chan := .out, data := .reportConv (conv1dReport p times probe) } ]

/-! ## Suite bridge (pipyperformance.py, lines 40-60) -/

/-- The whole pipyperformance.py run after `bench()` returns or raises
`SystemExit exitCode` (normal return modelled as code 0).  On a
non-zero code the handler of lines 43-45 reaches
`print("... %d", int(exc), file=sys.stderr)`, whose argument
`int(exc)` is evaluated on the `SystemExit` object and raises
`TypeError` - uncaught, so the process aborts before the log line is
written and before any artifact is read, report or no report.  On a
zero code, `open("output.json")` raises `FileNotFoundError` - also
uncaught, a non-zero process exit with no report - when the suite
produced no artifact (`none`); otherwise the re-wrapped report goes to
the saved original stdout and the process exits 0 (lines 47-60). -/
def pipyRun (exitCode : Int) (artifact : Option String) :
    Except String (List Event) :=
  if exitCode != 0 then
    .error "TypeError: int() argument cannot be a SystemExit"
  else
    match artifact with
    | none => .error "FileNotFoundError: output.json"
    | some bundle =>
      .ok [{ chan := .out,
             data := .reportPy
               { test_suite := "performance", name := "PiPyPerformance",
                 result := bundle } }]

/-! ## Helper lemmas -/

/-- Unrolling one repetition of the measurement loop. -/
theorem measure_succ (w : Nat → ℚ) (n : Nat) :
    measure w (n + 1) =
      { sess := { calls := (measure w n).sess.calls + 1 },
        times := (measure w n).times ++ [w (measure w n).sess.calls] } := by
  simp [measure, List.range_succ, List.foldl_append, sessRun]

/-- After the warm-up and `n` measured repetitions, `sess.run` has been
invoked `n + 1` times and the sample holds the durations of calls
`1, ..., n` in execution order. -/
theorem measure_calls_times (w : Nat → ℚ) (n : Nat) :
    (measure w n).sess.calls = n + 1 ∧
    (measure w n).times = (List.range n).map (fun i => w (i + 1)) := by
  induction n with
  | zero => exact ⟨rfl, rfl⟩
  | succ n ih =>
    rw [measure_succ]
    refine ⟨by simp [ih.1], ?_⟩
    rw [ih.2, ih.1, List.range_succ, List.map_append]
    rfl

/-- A malformed environment: `CONV_REPS` set to a non-numeric string. -/
def envBadReps : Env := fun k => if k == "CONV_REPS" then some "eighty" else none

/-- An empty environment: no variable is set. -/
def emptyEnv : Env := fun _ => none

/-- An environment setting only `TENSOR_INPUT_CHANNELS=5`. -/
def envTIC5 : Env :=
  fun k => if k == "TENSOR_INPUT_CHANNELS" then some "5" else none

/-! ## Claims -/

/-- C1: for every repetition count `r >= 1`, the timing engine executes
`run_once` once as an unmeasured warm-up and then `r` more times, one
recorded wall-clock duration per repetition: `r + 1` invocations in
total, a sample of length exactly `r`, and the sample holds the
durations of calls `1, ..., r` (the warm-up, call `0`, excluded). -/
theorem warmup_excluded_sample_length (w : Nat → ℚ) (r : Nat) (_hr : 1 ≤ r) :
    (measure w r).sess.calls = r + 1 ∧
    (measure w r).times.length = r ∧
    (measure w r).times = (List.range r).map (fun i => w (i + 1)) := by
  refine ⟨(measure_calls_times w r).1, ?_, (measure_calls_times w r).2⟩
  rw [(measure_calls_times w r).2]
  simp

theorem warmup_excluded_sample_length_witness :
    1 ≤ 3 ∧
    ((measure (fun i => (i : ℚ)) 3).sess.calls = 3 + 1 ∧
     (measure (fun i => (i : ℚ)) 3).times.length = 3 ∧
     (measure (fun i => (i : ℚ)) 3).times =
       (List.range 3).map (fun i => ((i + 1 : Nat) : ℚ))) :=
  ⟨by norm_num, warmup_excluded_sample_length (fun i => (i : ℚ)) 3 (by norm_num)⟩

/-- C2: the total-operations cost model of the numeric-op variant is
exactly the spec's closed form
`(batch * input_width * filter_width * input_channels * output_channels
* 2) / stride`, and on scenario A (batch=1, input_width=7,
input_channels=1, filter_width=3, output_channels=1, stride=2) it
equals `21`. -/
theorem total_operations_formula :
    (∀ p : ConvParams,
        benchOps p = spec_total_operations (p.batch : ℚ) (p.input_width : ℚ)
          (p.filter_width : ℚ) (p.t_input_channels : ℚ)
          (p.output_channels : ℚ) (p.stride : ℚ)) ∧
    benchOps scenarioA = 21 := by
  refine ⟨fun p => rfl, ?_⟩
  norm_num [benchOps, scenarioA, defaultConvParams]

/-- C3 (counterexample): on scenario A (total operations = 21) with a
measured elapsed of 10 ms the reported rate is not `2.1`: line 192
divides by the fixed scaling constant `10 ^ 6` after dividing by the
elapsed milliseconds, so the value placed in the report is `2.1e-6`. -/
theorem rate_scenarioA_not_two_point_one :
    benchRate scenarioA 10 ≠ 21 / 10 := by
  norm_num [benchRate, benchOps, scenarioA, defaultConvParams]

/-- C3 (amended): the derived rate is `total_operations / elapsed_ms`
divided by the fixed scaling constant `10 ^ 6`; on scenario A with an
elapsed of 10 ms the unnormalized ratio is `21 / 10 = 2.1` and the
reported rate is `2.1 / 10 ^ 6 = 21 / 10 ^ 7`. -/
theorem rate_formula :
    (∀ (p : ConvParams) (elapsed_ms : ℚ),
        benchRate p elapsed_ms = benchOps p / elapsed_ms / 10 ^ 6) ∧
    benchOps scenarioA / 10 = 21 / 10 ∧
    benchRate scenarioA 10 = 21 / 10 ^ 7 := by
  refine ⟨fun p e => rfl, ?_, ?_⟩ <;>
    norm_num [benchRate, benchOps, scenarioA, defaultConvParams]

/-- C4: the reducer is the statistical median, not the mean: the sample
`[3, 1, 2]` reduces to `2`, the even-length sample `[4, 1, 2, 3]` to
`5/2` (the average of the two middle values), and the median differs
from the mean on `[0, 0, 3]`. -/
theorem median_reduction :
    npMedian [3, 1, 2] = 2 ∧ npMedian [4, 1, 2, 3] = 5 / 2 ∧
    npMedian [0, 0, 3] ≠ listMean [0, 0, 3] := by
  refine ⟨?_, ?_, ?_⟩ <;>
    norm_num [npMedian, sortAsc, insertSorted, listMean]

/-- C5 (counterexample): parameter resolution can fail: with
`CONV_REPS=eighty`, `int(os.getenv("CONV_REPS", 80))` on line 47 raises
`ValueError` and the run aborts instead of falling back to the default. -/
theorem resolve_malformed_is_fatal :
    resolveConvParams envBadReps =
      .error "ValueError: invalid literal for int with base 10: eighty" := by
  rfl

/-- C5 (amended): unset parameter values fall back to their hardcoded
defaults and resolution succeeds (string-typed parameters are never
validated), but a malformed value of an integer-typed parameter is
fatal: it aborts resolution with a `ValueError`. -/
theorem resolve_unset_defaults :
    (∀ env : Env,
        env "CONV_REPS" = none → env "BATCH" = none →
        env "TENSOR_INPUT_WIDTH" = none → env "TENSOR_INPUT_CHANNELS" = none →
        env "FILTER_INPUT_WIDTH" = none → env "FILTER_INPUT_CHANNELS" = none →
        env "FILTER_OUTPUT_CHANNELS" = none → env "FILTER_STRIDE" = none →
        resolveConvParams env = .ok
          { dtype := resolveStrVar env "TENSOR_DTYPE" "float32",
            device := resolveStrVar env "CONV2D_DEVICE" "cpu",
            reps := 80,
            data_format := resolveStrVar env "CONV_DATA_FORMAT" "NWC",
            batch := 1, input_width := 7, t_input_channels := 1,
            filter_width := 3, f_input_channels := 1, output_channels := 1,
            padding := resolveStrVar env "FILTER_PADDING" "SAME",
            stride := 2 }) ∧
    resolveConvParams envBadReps =
      .error "ValueError: invalid literal for int with base 10: eighty" := by
  refine ⟨?_, rfl⟩
  intro env h1 h2 h3 h4 h5 h6 h7 h8
  simp only [resolveConvParams, resolveIntVar, h1, h2, h3, h4, h5, h6, h7, h8]

theorem resolve_unset_defaults_witness :
    emptyEnv "CONV_REPS" = none ∧ emptyEnv "BATCH" = none ∧
    emptyEnv "TENSOR_INPUT_WIDTH" = none ∧
    emptyEnv "TENSOR_INPUT_CHANNELS" = none ∧
    emptyEnv "FILTER_INPUT_WIDTH" = none ∧
    emptyEnv "FILTER_INPUT_CHANNELS" = none ∧
    emptyEnv "FILTER_OUTPUT_CHANNELS" = none ∧
    emptyEnv "FILTER_STRIDE" = none ∧
    resolveConvParams emptyEnv = .ok
      { dtype := resolveStrVar emptyEnv "TENSOR_DTYPE" "float32",
        device := resolveStrVar emptyEnv "CONV2D_DEVICE" "cpu",
        reps := 80,
        data_format := resolveStrVar emptyEnv "CONV_DATA_FORMAT" "NWC",
        batch := 1, input_width := 7, t_input_channels := 1,
        filter_width := 3, f_input_channels := 1, output_channels := 1,
        padding := resolveStrVar emptyEnv "FILTER_PADDING" "SAME",
        stride := 2 } :=
  ⟨rfl, rfl, rfl, rfl, rfl, rfl, rfl, rfl,
   resolve_unset_defaults.1 emptyEnv rfl rfl rfl rfl rfl rfl rfl rfl⟩

/-- C6 (code bug): with the suite exiting non-zero (`SystemExit 1`) and
a result artifact present, line 45 evaluates `int(exc)` on the
`SystemExit` object, raising an uncaught `TypeError`: the harness
aborts before the log line and before report emission, instead of
logging and proceeding to emit the report from the artifact as the
claim states.  (The no-artifact half of the claim does hold: with a
zero exit and no artifact the run fails with `FileNotFoundError` and no
report.) -/
theorem suite_nonzero_exit_aborts_uncaught :
    pipyRun 1 (some "bundle") =
      .error "TypeError: int() argument cannot be a SystemExit" ∧
    pipyRun 0 none = .error "FileNotFoundError: output.json" :=
  ⟨rfl, rfl⟩

/-- C7: on every successful run of either driver, standard output
carries exactly one serialized report and nothing else; every
diagnostic line of the traces is on stderr. -/
theorem single_report_on_stdout (p : ConvParams) (times : List ℚ)
    (probe : Except String String) (c : Int) (b : String) (tr : List Event)
    (h : pipyRun c (some b) = .ok tr) :
    stdoutOf (conv1dTrace p times probe) =
      [{ chan := .out, data := .reportConv (conv1dReport p times probe) }] ∧
    stdoutOf tr =
      [{ chan := .out,
         data := .reportPy
           { test_suite := "performance", name := "PiPyPerformance",
             result := b } }] := by
  refine ⟨rfl, ?_⟩
  unfold pipyRun at h
  split at h
  · exact Except.noConfusion h
  · injection h with h
    subst h
    rfl

theorem single_report_on_stdout_witness :
    pipyRun 0 (some "bundle") = .ok
      [{ chan := .out,
         data := .reportPy
           { test_suite := "performance", name := "PiPyPerformance",
             result := "bundle" } }] ∧
    (stdoutOf (conv1dTrace scenarioA [1] (.ok "buildinfo")) =
      [{ chan := .out,
         data := .reportConv (conv1dReport scenarioA [1] (.ok "buildinfo")) }] ∧
     stdoutOf
      [{ chan := .out,
         data := .reportPy
           { test_suite := "performance", name := "PiPyPerformance",
             result := "bundle" } }] =
      [{ chan := .out,
         data := .reportPy
           { test_suite := "performance", name := "PiPyPerformance",
             result := "bundle" } }]) :=
  ⟨rfl,
   single_report_on_stdout scenarioA [1] (.ok "buildinfo") 0 "bundle" _ rfl⟩

/-- C8: a failing build-metadata probe is recovered locally: the conv1d
report is still emitted as the sole stdout item, and its
`tensorflow_buildinfo` field is present and explicitly null (`none`). -/
theorem buildinfo_failure_recovered (p : ConvParams) (times : List ℚ)
    (err : String) :
    (conv1dReport p times (.error err)).tensorflow_buildinfo = none ∧
    stdoutOf (conv1dTrace p times (.error err)) =
      [{ chan := .out, data := .reportConv (conv1dReport p times (.error err)) }] :=
  ⟨rfl, rfl⟩

/-- C9: when `FILTER_INPUT_CHANNELS` is unset, the resolved
`f_input_channels` equals the resolved `t_input_channels`: the default
of line 71 is the already-resolved `_ARGS_T_INPUT_CHANNELS`, not a
constant. -/
theorem filter_channels_default_follows_tensor (env : Env) (p : ConvParams)
    (hunset : env "FILTER_INPUT_CHANNELS" = none)
    (hres : resolveConvParams env = .ok p) :
    p.f_input_channels = p.t_input_channels := by
  have hfic : ∀ d : Int, resolveIntVar env "FILTER_INPUT_CHANNELS" d = .ok d := by
    intro d
    unfold resolveIntVar
    rw [hunset]
  simp only [resolveConvParams, hfic] at hres
  repeat' split at hres
  all_goals
    first
      | exact Except.noConfusion hres
      | (injection hres with h; subst h; rfl)

theorem filter_channels_default_follows_tensor_witness :
    envTIC5 "FILTER_INPUT_CHANNELS" = none ∧
    resolveConvParams envTIC5 = .ok
      { dtype := "float32", device := "cpu", reps := 80, data_format := "NWC",
        batch := 1, input_width := 7, t_input_channels := 5, filter_width := 3,
        f_input_channels := 5, output_channels := 1, padding := "SAME",
        stride := 2 } ∧
    (5 : Int) = 5 :=
  ⟨rfl, rfl,
   filter_channels_default_follows_tensor envTIC5 _ rfl rfl⟩

/-- C10: `filter_input_channels` influences neither the cost model, nor
the derived rate, nor the report's parameter echo, nor the whole report
when the duration samples agree: it is absent from `ops` (lines
184-191) and from `"@parameters"` (lines 214-226). -/
theorem filter_input_channels_noninterference (p : ConvParams) (x : Int)
    (elapsed_ms : ℚ) (times : List ℚ) (probe : Except String String) :
    benchOps { p with f_input_channels := x } = benchOps p ∧
    benchRate { p with f_input_channels := x } elapsed_ms
      = benchRate p elapsed_ms ∧
    echoParams { p with f_input_channels := x } = echoParams p ∧
    conv1dReport { p with f_input_channels := x } times probe
      = conv1dReport p times probe :=
  ⟨rfl, rfl, rfl, rfl⟩

end PerfPI
